import Mathlib

/-!
Verification development for the STM32 USB device-side control-transfer
engine (fw/chip/stm32/usb.c).

The C sources are shallowly embedded: the interrupt-exclusive static
variables (set_addr, desc_left, desc_ptr, iface_next, remote_wakeup_enabled,
usb_wake_done, esof_count) together with the observable hardware state
(DADDR, the EP0 endpoint register, the EP0 btable entry, the EP0 buffers,
the CNTR bits used by suspend/resume) form one state record `Dev`; each C
function becomes a state-transition function.  The dedicated packet memory
is a word-indexed store `Ram`, and memcpy_to_usbram / memcpy_from_usbram
are translated word operation by word operation.

Configuration-dependent material that lives outside usb.c
(usb_descriptor.h constants, the interface handler table, the descriptor
blobs, USB_IFACE_COUNT / USB_STR_COUNT) is abstracted into a `UsbConfig`
parameter; the handlers are external collaborators and only their integer
return codes are observed, as in the dispatch code.  The model is built
with CONFIG_USB_SUSPEND and CONFIG_USB_REMOTE_WAKEUP enabled and without
CONFIG_USB_BOS / CONFIG_WEBUSB_URL / CONFIG_USB_SERIALNO /
CONFIG_USB_SELF_POWERED, matching the code paths the claims are about.

`tx_log` and `board_wake_calls` are ghost fields: `tx_log` records every
payload staged into the EP0 transmit buffer (for the concatenation
property), `board_wake_calls` counts invocations of the board_usb_wake
side-channel hook.  Neither influences any transition.
-/

/-! USB protocol constants.  Modelled from the spec: these come from
usb_descriptor.h / registers.h, which are not part of the provided
sources; the values are the USB 2.0 standard request codes and the
bMaxPacketSize0 of the device descriptor (full-speed control endpoint,
64 bytes). -/

def USB_MAX_PACKET_SIZE : Nat := 64

def USB_DIR_OUT : Nat := 0x00

def USB_DIR_IN : Nat := 0x80

def USB_RECIP_MASK : Nat := 0x1f

def USB_RECIP_INTERFACE : Nat := 0x01

def USB_TYPE_MASK : Nat := 0x60

def USB_TYPE_VENDOR : Nat := 0x40

def USB_REQ_GET_STATUS : Nat := 0x00

def USB_REQ_CLEAR_FEATURE : Nat := 0x01

def USB_REQ_SET_FEATURE : Nat := 0x03

def USB_REQ_SET_ADDRESS : Nat := 0x05

def USB_REQ_GET_DESCRIPTOR : Nat := 0x06

def USB_REQ_SET_CONFIGURATION : Nat := 0x09

def USB_DT_DEVICE : Nat := 1

def USB_DT_CONFIGURATION : Nat := 2

def USB_DT_STRING : Nat := 3

def USB_DT_DEVICE_QUALIFIER : Nat := 6

def USB_REQ_FEATURE_DEVICE_REMOTE_WAKEUP : Nat := 1

def USB_REQ_GET_STATUS_REMOTE_WAKEUP : Nat := 2

/-- usb.c line 47: resume countdown hard timeout in ms. -/
def USB_RESUME_TIMEOUT_MS : Nat := 300

/-! Packet memory.  The STM32 dedicated USB RAM is addressable only in
16-bit words (usb_uint); `Ram` maps a word index to the stored word.
Byte offsets into the region are translated exactly as in the C code:
word index is offset / 2, the unaligned flag is offset & 1. -/

abbrev Ram := Nat → Nat

/-- Store one 16-bit word at word index i (a C write *d = v). -/
def ramUpd (ram : Ram) (i v : Nat) : Ram := fun j => if j = i then v else ram j

/-- The aligned part of memcpy_to_usbram (usb.c lines 616-624): the main
loop writes word (s[1] << 8) | s[0] per byte pair, and a trailing odd
byte is merged into the low half of its word by read-modify-write
(*d = (*d & ~0x00ff) | *s, with 16-bit usb_uint so ~0x00ff is 0xff00). -/
def pm_write_aligned : Ram → Nat → List Nat → Ram
  | ram, _, [] => ram
  | ram, d, [b] => ramUpd ram d ((ram d &&& 0xff00) ||| (b % 256))
  | ram, d, b0 :: b1 :: rest =>
      pm_write_aligned (ramUpd ram d (((b1 % 256) <<< 8) ||| (b0 % 256))) (d + 1) rest

/-- memcpy_to_usbram (usb.c lines 599-627).  An unaligned leading byte is
merged into the high half of its word by read-modify-write
(*d = (*d & ~0xff00) | (*s << 8), 16-bit usb_uint so ~0xff00 is 0x00ff);
the rest is the aligned copy.  Source bytes are uint8_t, hence % 256. -/
def memcpy_to_usbram (ram : Ram) (dest : Nat) (src : List Nat) : Ram :=
  if dest % 2 = 1 then
    match src with
    | [] => ram
    | b :: rest =>
        pm_write_aligned
          (ramUpd ram (dest / 2) ((ram (dest / 2) &&& 0xff) ||| ((b % 256) <<< 8)))
          (dest / 2 + 1) rest
  else pm_write_aligned ram (dest / 2) src

/-- The aligned part of memcpy_from_usbram (usb.c lines 643-651): the main
loop emits (value >> 0) & 0xff then (value >> 8) & 0xff per word, and a
trailing byte is *d = *s with uint8_t truncation (% 256). -/
def pm_read_aligned : Ram → Nat → Nat → List Nat
  | _, _, 0 => []
  | ram, d, 1 => [ram d % 256]
  | ram, d, n + 2 =>
      (ram d &&& 0xff) :: ((ram d >>> 8) &&& 0xff) :: pm_read_aligned ram (d + 1) n

/-- memcpy_from_usbram (usb.c lines 629-654).  An unaligned leading byte
is *d = *s >> 8 with uint8_t truncation. -/
def memcpy_from_usbram (ram : Ram) (src : Nat) (n : Nat) : List Nat :=
  if src % 2 = 1 then
    match n with
    | 0 => []
    | m + 1 => ((ram (src / 2) >>> 8) % 256) :: pm_read_aligned ram (src / 2 + 1) m
  else pm_read_aligned ram (src / 2) n

/-- The byte stored at byte offset p of the packet memory: low half of its
word for even p, high half for odd p. -/
def bytePM (ram : Ram) (p : Nat) : Nat :=
  if p % 2 = 0 then ram (p / 2) &&& 0xff else (ram (p / 2) >>> 8) &&& 0xff

/-! The control-transfer engine state. -/

/-- Target of a TX or RX status field of an STM32 endpoint register. -/
inductive EPXfer
  | disab
  | stall
  | nak
  | valid
deriving DecidableEq

/-- Observable part of the EP0 endpoint register: the two direction status
fields plus the EP_KIND/STATUS_OUT flag.  Modelled from the spec:
STM32_TOGGLE_EP (registers.h, not among the provided sources) writes the
read value XORed with the desired status into the toggle bits, which sets
each masked direction status to the named target value and the STATUS_OUT
flag to the flags argument; the model stores the resulting targets
directly. -/
structure EP0Reg where
  tx : EPXfer
  rx : EPXfer
  statusOut : Bool
deriving DecidableEq

/-- Process-wide state of usb.c plus the observable hardware registers.
tx_log and board_wake_calls are ghost instrumentation (see the file
header). -/
structure Dev where
  set_addr : Nat
  desc_left : Nat
  desc_ptr : Option (List Nat)
  iface_next : Nat
  remote_wakeup_enabled : Bool
  daddr : Nat
  ep0 : EP0Reg
  btable0_tx_addr : Nat
  btable0_rx_addr : Nat
  btable0_tx_count : Nat
  btable0_rx_count : Nat
  tx_buf : List Nat
  rx_buf : List Nat
  cntr_fsusp : Bool
  cntr_lpmode : Bool
  cntr_resume : Bool
  cntr_esofm : Bool
  usb_wake_done : Bool
  esof_count : Int
  board_wake_calls : Nat
  tx_log : List (List Nat)
deriving DecidableEq

/-- Build-time configuration: descriptor blobs, table sizes, and the
externally registered interface handlers (only their return codes are
observed by usb.c). -/
structure UsbConfig where
  ifaceCount : Nat
  strCount : Nat
  deviceDesc : List Nat
  descSize : Nat
  configDesc : List Nat
  strings : Nat → List Nat
  iface : Nat → Option (List Nat) → Int

/-- Word i of the EP0 receive buffer (ep0_buf_rx[i]). -/
def rxw (d : Dev) (i : Nat) : Nat := d.rx_buf.getD i 0

/-- ep0_buf_tx[1] = fixup_size (usb.c line 137): word 1 of the transmit
buffer is bytes 2 and 3 of the staged packet, little endian. -/
def setTxWord1 (buf : List Nat) (v : Nat) : List Nat :=
  (buf.set 2 (v % 256)).set 3 (v / 256 % 256)

/-- The unknown_req label (usb.c lines 277-278):
STM32_TOGGLE_EP(0, EP_TX_RX_MASK, EP_RX_VALID | EP_TX_STALL, 0). -/
def unknown_req (d : Dev) : Dev :=
  { d with ep0 := { tx := EPXfer.stall, rx := EPXfer.valid, statusOut := false } }

/-- ep0_send_descriptor (usb.c lines 121-142).  len is clamped to the
host-requested wLength (ep0_buf_rx[3]); if len >= USB_MAX_PACKET_SIZE the
remainder is handed to the descriptor stream cursor; the chunk is copied
into the transmit buffer, word 1 is overwritten when fixup_size is
non-zero, and the endpoint is armed TX/RX VALID with STATUS_OUT exactly
when desc_left is zero afterwards. -/
def ep0_send_descriptor (d : Dev) (desc : List Nat) (len0 : Nat) (fixup_size : Nat) : Dev :=
  let len1 := min (rxw d 3) len0
  let dleft := if USB_MAX_PACKET_SIZE ≤ len1 then len1 - USB_MAX_PACKET_SIZE else d.desc_left
  let dptr := if USB_MAX_PACKET_SIZE ≤ len1 then some (desc.drop USB_MAX_PACKET_SIZE)
              else d.desc_ptr
  let len := if USB_MAX_PACKET_SIZE ≤ len1 then USB_MAX_PACKET_SIZE else len1
  let buf0 := desc.take len
  let buf := if fixup_size ≠ 0 then setTxWord1 buf0 fixup_size else buf0
  { d with desc_left := dleft, desc_ptr := dptr, tx_buf := buf,
           tx_log := d.tx_log ++ [buf], btable0_tx_count := len,
           ep0 := { tx := EPXfer.valid, rx := EPXfer.valid, statusOut := decide (dleft = 0) } }

/-- The body of ep0_rx after the two state-resetting assignments (usb.c
lines 152-279): dispatch to interface handlers, the vendor check (no
CONFIG_WEBUSB_URL), GET_DESCRIPTOR (no CONFIG_USB_BOS), GET_STATUS,
and the standard OUT requests. -/
def ep0_rx_dispatch (cfg : UsbConfig) (d : Dev) : Dev :=
  let req := rxw d 0
  if (req &&& USB_RECIP_MASK) = USB_RECIP_INTERFACE ∧ (rxw d 2 &&& 0xff) < cfg.ifaceCount then
    let ret := cfg.iface (rxw d 2 &&& 0xff) (some d.rx_buf)
    if ret < 0 then unknown_req d
    else if ret = 1 then { d with iface_next := rxw d 2 &&& 0xff }
    else d
  else if (req &&& USB_TYPE_MASK) = USB_TYPE_VENDOR then
    unknown_req d
  else if req = USB_DIR_IN ||| (USB_REQ_GET_DESCRIPTOR <<< 8) then
    let ty := rxw d 1 >>> 8
    let idx := rxw d 1 &&& 0xff
    if ty = USB_DT_DEVICE then
      ep0_send_descriptor d cfg.deviceDesc cfg.deviceDesc.length 0
    else if ty = USB_DT_CONFIGURATION then
      ep0_send_descriptor d cfg.configDesc cfg.descSize cfg.descSize
    else if ty = USB_DT_STRING then
      if cfg.strCount ≤ idx then unknown_req d
      else ep0_send_descriptor d (cfg.strings idx) ((cfg.strings idx).getD 0 0) 0
    else unknown_req d
  else if req = USB_DIR_IN ||| (USB_REQ_GET_STATUS <<< 8) then
    let data := if d.remote_wakeup_enabled then USB_REQ_GET_STATUS_REMOTE_WAKEUP else 0
    { d with tx_buf := [data % 256, data / 256 % 256],
             tx_log := d.tx_log ++ [[data % 256, data / 256 % 256]],
             btable0_tx_count := 2,
             ep0 := { tx := EPXfer.valid, rx := EPXfer.valid, statusOut := true } }
  else if (req &&& 0xff) = USB_DIR_OUT then
    if (req >>> 8) = USB_REQ_SET_FEATURE ∨ (req >>> 8) = USB_REQ_CLEAR_FEATURE then
      if rxw d 1 = USB_REQ_FEATURE_DEVICE_REMOTE_WAKEUP then
        { d with remote_wakeup_enabled := decide ((req >>> 8) = USB_REQ_SET_FEATURE),
                 btable0_tx_count := 0,
                 ep0 := { tx := EPXfer.valid, rx := EPXfer.valid, statusOut := false } }
      else unknown_req d
    else if (req >>> 8) = USB_REQ_SET_ADDRESS then
      { d with set_addr := rxw d 1 &&& 0xff, btable0_tx_count := 0,
               ep0 := { tx := EPXfer.valid, rx := EPXfer.valid, statusOut := false } }
    else if (req >>> 8) = USB_REQ_SET_CONFIGURATION then
      { d with btable0_tx_count := 0,
               ep0 := { tx := EPXfer.valid, rx := EPXfer.valid, statusOut := false } }
    else unknown_req d
  else unknown_req d

/-- ep0_rx (usb.c lines 145-279): first resets any incomplete descriptor
transfer (desc_ptr = NULL; desc_left is NOT touched) and the active
interface slot (iface_next = USB_IFACE_COUNT), then dispatches. -/
def ep0_rx (cfg : UsbConfig) (d : Dev) : Dev :=
  ep0_rx_dispatch cfg { d with desc_ptr := none, iface_next := cfg.ifaceCount }

/-- ep0_tx (usb.c lines 281-313): apply a pending SET_ADDRESS first, then
continue an on-going descriptor stream, else drive the active interface
handler, else re-validate TX. -/
def ep0_tx (cfg : UsbConfig) (d0 : Dev) : Dev :=
  let d := if d0.set_addr ≠ 0 then { d0 with daddr := d0.set_addr ||| 0x80, set_addr := 0 }
           else d0
  match d.desc_ptr with
  | some ptr =>
      let len := min d.desc_left USB_MAX_PACKET_SIZE
      { d with tx_buf := ptr.take len,
               tx_log := d.tx_log ++ [ptr.take len],
               btable0_tx_count := len,
               desc_left := d.desc_left - len,
               desc_ptr := some (ptr.drop len),
               ep0 := { d.ep0 with tx := EPXfer.valid,
                                   statusOut := decide (d.desc_left - len = 0) } }
  | none =>
      if d.iface_next < cfg.ifaceCount then
        let ret := cfg.iface d.iface_next none
        if ret < 0 then
          { d with ep0 := { d.ep0 with tx := EPXfer.valid, statusOut := false } }
        else if ret = 0 then { d with iface_next := cfg.ifaceCount }
        else d
      else { d with ep0 := { d.ep0 with tx := EPXfer.valid, statusOut := false } }

/-- Linker-assigned SRAM offset of ep0_buf_tx; the exact value is not
observable by any claim. -/
def ep0_buf_tx_addr : Nat := 0x40

/-- Linker-assigned SRAM offset of ep0_buf_rx. -/
def ep0_buf_rx_addr : Nat := 0x80

/-- ep0_event on USB_EVENT_RESET (usb.c lines 315-328): control endpoint,
TX NAK, RX VALID, btable entry re-initialized. -/
def ep0_event_reset (d : Dev) : Dev :=
  { d with ep0 := { tx := EPXfer.nak, rx := EPXfer.valid, statusOut := false },
           btable0_tx_addr := ep0_buf_tx_addr,
           btable0_rx_addr := ep0_buf_rx_addr,
           btable0_rx_count := 0x8000 ||| ((USB_MAX_PACKET_SIZE / 32 - 1) <<< 10),
           btable0_tx_count := 0 }

/-- usb_reset (usb.c lines 331-344): run every endpoint event handler with
USB_EVENT_RESET (the model follows endpoint 0, whose handler is
ep0_event; other endpoints are external collaborators), then set the
default address 0 with the enable bit. -/
def usb_reset (d : Dev) : Dev :=
  { ep0_event_reset d with daddr := 0 ||| 0x80 }

/-- usb_suspend (usb.c lines 348-362): set FSUSP then LP_MODE. -/
def usb_suspend (d : Dev) : Dev :=
  { d with cntr_fsusp := true, cntr_lpmode := true }

/-- usb_resume (usb.c lines 364-384): clear FSUSP. -/
def usb_resume (d : Dev) : Dev :=
  { d with cntr_fsusp := false }

/-- usb_wake (usb.c lines 404-431): return if remote wakeup is not enabled
or FSUSP is clear; atomically read-and-clear usb_wake_done and return if
it was already 0; otherwise arm esof_count = 3, set RESUME and ESOFM, and
fire the board side-channel hook (counted in the ghost field). -/
def usb_wake (d : Dev) : Dev :=
  if d.remote_wakeup_enabled = false ∨ d.cntr_fsusp = false then d
  else if d.usb_wake_done = false then d
  else { d with usb_wake_done := false, esof_count := 3,
                cntr_resume := true, cntr_esofm := true,
                board_wake_calls := d.board_wake_calls + 1 }

/-- usb_is_suspended (usb.c lines 434-447). -/
def usb_is_suspended (d : Dev) : Bool :=
  if d.cntr_fsusp then true
  else if d.usb_wake_done = false then true
  else false

/-- Interrupt status word and bus line state sampled by one invocation of
usb_interrupt: the handled ISTR causes, the transaction endpoint and
direction, and the FNR RXDP/RXDM line state read during the wake
countdown. -/
structure IntrStatus where
  reset : Bool
  esof : Bool
  susp : Bool
  wkup : Bool
  ctr : Bool
  ep : Nat
  dir_rx : Bool
  linestate : Nat
deriving DecidableEq

/-- The ESOF wake-countdown block of usb_interrupt (usb.c lines 464-490):
while a wake is in progress, each ESOF decrements esof_count, RESUME is
cleared when it reaches 0, and once it is <= 0 the line state is checked;
on state 2 or 3 or after the 300 ms timeout the countdown ends
(ESOFM cleared, usb_wake_done set), re-suspending unless state is 2. -/
def esof_step (i : IntrStatus) (d : Dev) : Dev :=
  if i.esof ∧ d.usb_wake_done = false then
    let ec := d.esof_count - 1
    let d1 := { d with esof_count := ec }
    let d2 := if ec = 0 then { d1 with cntr_resume := false } else d1
    if ec ≤ 0 then
      if i.linestate = 2 ∨ i.linestate = 3 ∨ ec ≤ -(USB_RESUME_TIMEOUT_MS : Int) then
        let d3 := { d2 with cntr_esofm := false, usb_wake_done := true }
        if i.linestate ≠ 2 then usb_suspend d3 else d3
      else d2
    else d2
  else d

/-- usb.c line 454: handle a bus reset first. -/
def reset_step (i : IntrStatus) (d : Dev) : Dev :=
  if i.reset then usb_reset d else d

/-- usb.c line 493: a suspend cause invokes usb_suspend. -/
def susp_step (i : IntrStatus) (d : Dev) : Dev :=
  if i.susp then usb_suspend d else d

/-- usb.c line 496: a wakeup cause invokes usb_resume. -/
def wkup_step (i : IntrStatus) (d : Dev) : Dev :=
  if i.wkup then usb_resume d else d

/-- usb.c lines 500-510: a completed transaction is routed to the
endpoint RX or TX handler by direction (endpoint 0 in the model; other
endpoints are external collaborators). -/
def ctr_step (cfg : UsbConfig) (i : IntrStatus) (d : Dev) : Dev :=
  if i.ctr ∧ i.ep = 0 then (if i.dir_rx then ep0_rx cfg d else ep0_tx cfg d) else d

/-- usb_interrupt (usb.c lines 450-514): bus reset, wake countdown,
suspend, resume, then the completed-transaction dispatch, in the order
of the C function body. -/
def usb_interrupt (cfg : UsbConfig) (i : IntrStatus) (d : Dev) : Dev :=
  ctr_step cfg i (wkup_step i (susp_step i (esof_step i (reset_step i d))))

/-- Drive the IN stage of an on-going descriptor stream: each completed IN
transaction invokes ep0_tx; the stage ends when the cursor is empty or
the remaining count has reached zero (the chunk with STATUS_OUT armed has
been staged).  Structural fuel so that concrete runs evaluate. -/
def ep0_pumpN (cfg : UsbConfig) : Nat → Dev → Dev
  | 0, d => d
  | fuel + 1, d =>
      if d.desc_ptr ≠ none ∧ d.desc_left ≠ 0 then ep0_pumpN cfg fuel (ep0_tx cfg d)
      else d

/-- The requests that reach the unknown_req label of ep0_rx: an interface
handler error, an unmatched vendor request, a GET_DESCRIPTOR for a string
index out of range or a device qualifier or an unhandled type, an
unsupported feature, an unhandled OUT request, and everything else
unmatched. -/
abbrev ep0_unmatched (cfg : UsbConfig) (d : Dev) : Prop :=
  let req := rxw d 0
  let ifaceHit :=
    (req &&& USB_RECIP_MASK) = USB_RECIP_INTERFACE ∧ (rxw d 2 &&& 0xff) < cfg.ifaceCount
  (ifaceHit ∧ cfg.iface (rxw d 2 &&& 0xff) (some d.rx_buf) < 0) ∨
  (¬ifaceHit ∧ (req &&& USB_TYPE_MASK) = USB_TYPE_VENDOR) ∨
  (¬ifaceHit ∧ (req &&& USB_TYPE_MASK) ≠ USB_TYPE_VENDOR ∧
    req = USB_DIR_IN ||| (USB_REQ_GET_DESCRIPTOR <<< 8) ∧
    (rxw d 1 >>> 8) ≠ USB_DT_DEVICE ∧ (rxw d 1 >>> 8) ≠ USB_DT_CONFIGURATION ∧
    ((rxw d 1 >>> 8) = USB_DT_STRING → cfg.strCount ≤ (rxw d 1 &&& 0xff))) ∨
  (¬ifaceHit ∧ (req &&& USB_TYPE_MASK) ≠ USB_TYPE_VENDOR ∧
    req ≠ USB_DIR_IN ||| (USB_REQ_GET_DESCRIPTOR <<< 8) ∧
    req ≠ USB_DIR_IN ||| (USB_REQ_GET_STATUS <<< 8) ∧
    (req &&& 0xff) = USB_DIR_OUT ∧
    ((req >>> 8) = USB_REQ_SET_FEATURE ∨ (req >>> 8) = USB_REQ_CLEAR_FEATURE) ∧
    rxw d 1 ≠ USB_REQ_FEATURE_DEVICE_REMOTE_WAKEUP) ∨
  (¬ifaceHit ∧ (req &&& USB_TYPE_MASK) ≠ USB_TYPE_VENDOR ∧
    req ≠ USB_DIR_IN ||| (USB_REQ_GET_DESCRIPTOR <<< 8) ∧
    req ≠ USB_DIR_IN ||| (USB_REQ_GET_STATUS <<< 8) ∧
    (req &&& 0xff) = USB_DIR_OUT ∧
    (req >>> 8) ≠ USB_REQ_SET_FEATURE ∧ (req >>> 8) ≠ USB_REQ_CLEAR_FEATURE ∧
    (req >>> 8) ≠ USB_REQ_SET_ADDRESS ∧ (req >>> 8) ≠ USB_REQ_SET_CONFIGURATION) ∨
  (¬ifaceHit ∧ (req &&& USB_TYPE_MASK) ≠ USB_TYPE_VENDOR ∧
    req ≠ USB_DIR_IN ||| (USB_REQ_GET_DESCRIPTOR <<< 8) ∧
    req ≠ USB_DIR_IN ||| (USB_REQ_GET_STATUS <<< 8) ∧
    (req &&& 0xff) ≠ USB_DIR_OUT)

/-! Concrete fixtures used by witnesses and counterexamples. -/

/-- A concrete configuration: two interfaces whose handlers acknowledge
with no continuation, two strings, an 18-byte device descriptor. -/
def cfg0 : UsbConfig :=
  { ifaceCount := 2, strCount := 2,
    deviceDesc := [18, 1, 0, 2, 0, 0, 0, 64, 0x34, 0x12, 0x01, 0x50, 0, 1, 1, 2, 0, 1],
    descSize := 64,
    configDesc := List.replicate 64 0x42,
    strings := fun _ => [4, 3, 9, 4],
    iface := fun _ _ => 0 }

/-- A concrete idle device state. -/
def dev0 : Dev :=
  { set_addr := 0, desc_left := 0, desc_ptr := none, iface_next := 2,
    remote_wakeup_enabled := false, daddr := 0x80,
    ep0 := { tx := EPXfer.nak, rx := EPXfer.valid, statusOut := false },
    btable0_tx_addr := ep0_buf_tx_addr, btable0_rx_addr := ep0_buf_rx_addr,
    btable0_tx_count := 0, btable0_rx_count := 0x8400,
    tx_buf := [], rx_buf := [0, 0, 0, 0],
    cntr_fsusp := false, cntr_lpmode := false, cntr_resume := false,
    cntr_esofm := false, usb_wake_done := true, esof_count := 0,
    board_wake_calls := 0, tx_log := [] }

/-! Arithmetic facts about the 16-bit word packing used by the packet
memory shim. -/

theorem and255 (x : Nat) : x &&& 0xff = x % 256 := by
  have h := Nat.and_pow_two_sub_one_eq_mod x 8
  norm_num at h
  exact h

theorem and127 (x : Nat) : x &&& 0x7f = x % 128 := by
  have h := Nat.and_pow_two_sub_one_eq_mod x 7
  norm_num at h
  exact h

theorem shl8 (x : Nat) : x <<< 8 = x * 256 := by
  rw [Nat.shiftLeft_eq]

theorem shr8 (x : Nat) : x >>> 8 = x / 256 := by
  rw [Nat.shiftRight_eq_div_pow]

theorem lor_mul_add {k : Nat} (a b : Nat) (h : b < 2 ^ k) :
    (2 ^ k * a) ||| b = 2 ^ k * a + b := by
  apply Nat.eq_of_testBit_eq
  intro i
  have hA : (2 ^ k * a).testBit i = if i < k then false else a.testBit (i - k) := by
    have h0 : 2 ^ k * a = 2 ^ k * a + 0 := by omega
    rw [h0, Nat.testBit_mul_pow_two_add a (by positivity) i]
    simp [Nat.zero_testBit]
  have hB : (2 ^ k * a + b).testBit i = if i < k then b.testBit i else a.testBit (i - k) :=
    Nat.testBit_mul_pow_two_add a h i
  rw [Nat.testBit_or, hA, hB]
  rcases Nat.lt_or_ge i k with hik | hik
  · simp [hik]
  · have hb : b.testBit i = false :=
      Nat.testBit_lt_two_pow (lt_of_lt_of_le h (Nat.pow_le_pow_right (by norm_num) hik))
    simp [Nat.not_lt.mpr hik, hb]

theorem or256 (a b : Nat) (h : b < 256) : (a * 256) ||| b = a * 256 + b := by
  have h2 := lor_mul_add (k := 8) a b (by omega)
  norm_num at h2
  rw [Nat.mul_comm a 256]
  exact h2

theorem and_ff00 (w : Nat) : w &&& 0xff00 = w / 256 % 256 * 256 := by
  apply Nat.eq_of_testBit_eq
  intro i
  have hm : (0xff00 : Nat) = (2 ^ 8 - 1) <<< 8 := by decide
  have h2 : w / 256 % 256 * 256 = 2 ^ 8 * (w / 256 % 256) + 0 := by ring
  rw [Nat.testBit_and, hm, Nat.testBit_shiftLeft, Nat.testBit_two_pow_sub_one, h2,
      Nat.testBit_mul_pow_two_add (w / 256 % 256) (show (0 : Nat) < 2 ^ 8 by positivity) i]
  rcases Nat.lt_or_ge i 8 with h | h
  · have hge : ¬(i ≥ 8) := by omega
    simp [h, hge, Nat.zero_testBit]
  · have hnl : ¬(i < 8) := by omega
    have hr : (w / 256 % 256).testBit (i - 8) =
        (decide (i - 8 < 8) && (w / 256).testBit (i - 8)) := by
      have hh := Nat.testBit_mod_two_pow (w / 256) 8 (i - 8)
      norm_num at hh
      exact hh
    have hs : (w / 256).testBit (i - 8) = w.testBit i := by
      rw [← shr8, Nat.testBit_shiftRight]
      congr 1
      omega
    simp [hnl, h, hr, hs, Bool.and_comm]

theorem pair_lo (b0 b1 : Nat) : (((b1 % 256) <<< 8) ||| (b0 % 256)) &&& 0xff = b0 % 256 := by
  simp only [shl8, and255]
  rw [or256 _ _ (Nat.mod_lt _ (by norm_num))]
  omega

theorem pair_hi (b0 b1 : Nat) :
    ((((b1 % 256) <<< 8) ||| (b0 % 256)) >>> 8) &&& 0xff = b1 % 256 := by
  simp only [shl8, shr8, and255]
  rw [or256 _ _ (Nat.mod_lt _ (by norm_num))]
  omega

theorem tail_lo (w b : Nat) : ((w &&& 0xff00) ||| (b % 256)) &&& 0xff = b % 256 := by
  simp only [and_ff00, and255]
  rw [or256 _ _ (Nat.mod_lt _ (by norm_num))]
  omega

theorem tail_hi (w b : Nat) :
    (((w &&& 0xff00) ||| (b % 256)) >>> 8) &&& 0xff = (w >>> 8) &&& 0xff := by
  simp only [and_ff00, shr8, and255]
  rw [or256 _ _ (Nat.mod_lt _ (by norm_num))]
  omega

theorem head_lo (w b : Nat) :
    ((w &&& 0xff) ||| ((b % 256) <<< 8)) &&& 0xff = w &&& 0xff := by
  simp only [shl8, and255]
  rw [Nat.lor_comm, or256 _ _ (Nat.mod_lt _ (by norm_num))]
  omega

theorem head_hi (w b : Nat) :
    (((w &&& 0xff) ||| ((b % 256) <<< 8)) >>> 8) &&& 0xff = b % 256 := by
  simp only [shl8, shr8, and255]
  rw [Nat.lor_comm, or256 _ _ (Nat.mod_lt _ (by norm_num))]
  omega

theorem bytePM_upd_lo (ram : Ram) (w v p : Nat) (hp : p % 2 = 0) (hw : p / 2 = w) :
    bytePM (ramUpd ram w v) p = v &&& 0xff := by
  simp [bytePM, ramUpd, hp, hw]

theorem bytePM_upd_hi (ram : Ram) (w v p : Nat) (hp : p % 2 = 1) (hw : p / 2 = w) :
    bytePM (ramUpd ram w v) p = (v >>> 8) &&& 0xff := by
  simp [bytePM, ramUpd, hp, hw]

theorem bytePM_upd_other (ram : Ram) (w v p : Nat) (hw : p / 2 ≠ w) :
    bytePM (ramUpd ram w v) p = bytePM ram p := by
  simp [bytePM, ramUpd, hw]

theorem twoStepList {P : List Nat → Prop} (h0 : P []) (h1 : ∀ b, P [b])
    (h2 : ∀ b0 b1 rest, P rest → P (b0 :: b1 :: rest)) : ∀ s : List Nat, P s
  | [] => h0
  | [b] => h1 b
  | b0 :: b1 :: rest => h2 b0 b1 rest (twoStepList h0 h1 h2 rest)

theorem nat2Step {P : Nat → Prop} (h0 : P 0) (h1 : P 1) (h2 : ∀ n, P n → P (n + 2)) :
    ∀ n, P n
  | 0 => h0
  | 1 => h1
  | n + 2 => h2 n (nat2Step h0 h1 h2 n)

theorem pm_write_aligned_frame :
    ∀ (s : List Nat) (ram : Ram) (w j : Nat), j < w → pm_write_aligned ram w s j = ram j := by
  refine twoStepList ?_ ?_ ?_
  · intro _ _ _ _
    rfl
  · intro b ram w j hj
    simp [pm_write_aligned, ramUpd, Nat.ne_of_lt hj]
  · intro b0 b1 rest ih ram w j hj
    simp only [pm_write_aligned]
    rw [ih _ _ _ (by omega)]
    simp [ramUpd, Nat.ne_of_lt hj]

theorem pm_rw_aligned :
    ∀ (s : List Nat) (ram : Ram) (w : Nat),
      pm_read_aligned (pm_write_aligned ram w s) w s.length = s.map (fun b => b % 256) := by
  refine twoStepList ?_ ?_ ?_
  · intro _ _
    rfl
  · intro b ram w
    simp only [pm_write_aligned, List.length_cons, List.length_nil, pm_read_aligned,
               List.map_cons, List.map_nil]
    simp only [ramUpd, if_pos]
    rw [← and255, tail_lo]
  · intro b0 b1 rest ih ram w
    simp only [List.length_cons]
    rw [show rest.length + 1 + 1 = rest.length + 2 from rfl]
    simp only [pm_write_aligned, pm_read_aligned, List.map_cons]
    rw [pm_write_aligned_frame rest _ (w + 1) w (by omega)]
    simp only [ramUpd, if_pos]
    rw [pair_lo, pair_hi, ih]

theorem memcpy_rw_mod (ram : Ram) (off : Nat) (s : List Nat) :
    memcpy_from_usbram (memcpy_to_usbram ram off s) off s.length =
      s.map (fun b => b % 256) := by
  by_cases hd : off % 2 = 1
  · cases s with
    | nil => simp [memcpy_to_usbram, memcpy_from_usbram, hd]
    | cons b rest =>
      simp only [memcpy_to_usbram, memcpy_from_usbram, hd, if_pos, List.length_cons,
                 List.map_cons]
      rw [pm_write_aligned_frame rest _ (off / 2 + 1) (off / 2) (by omega)]
      simp only [ramUpd, if_pos]
      rw [← and255, head_hi, pm_rw_aligned]
  · rw [memcpy_to_usbram.eq_def, memcpy_from_usbram.eq_def, if_neg hd, if_neg hd]
    exact pm_rw_aligned s ram (off / 2)

theorem pm_write_aligned_bytePM_frame :
    ∀ (s : List Nat) (ram : Ram) (w p : Nat), p < 2 * w ∨ 2 * w + s.length ≤ p →
      bytePM (pm_write_aligned ram w s) p = bytePM ram p := by
  refine twoStepList ?_ ?_ ?_
  · intro _ _ _ _
    rfl
  · intro b ram w p hp
    by_cases hw : p / 2 = w
    · have hp1 : p % 2 = 1 := by
        simp only [List.length_cons, List.length_nil] at hp
        omega
      rw [show pm_write_aligned ram w [b] = ramUpd ram w ((ram w &&& 0xff00) ||| (b % 256))
            from rfl,
          bytePM_upd_hi ram w _ p hp1 hw, tail_hi]
      simp [bytePM, hp1, hw]
    · rw [show pm_write_aligned ram w [b] = ramUpd ram w ((ram w &&& 0xff00) ||| (b % 256))
            from rfl,
          bytePM_upd_other ram w _ p hw]
  · intro b0 b1 rest ih ram w p hp
    simp only [List.length_cons] at hp
    simp only [pm_write_aligned]
    rw [ih _ _ _ (by omega)]
    exact bytePM_upd_other ram w _ p (by omega)

theorem memcpy_to_usbram_frame (ram : Ram) (dest : Nat) (s : List Nat) (p : Nat)
    (hp : p < dest ∨ dest + s.length ≤ p) :
    bytePM (memcpy_to_usbram ram dest s) p = bytePM ram p := by
  by_cases hd : dest % 2 = 1
  · cases s with
    | nil => simp [memcpy_to_usbram, hd]
    | cons b rest =>
      simp only [List.length_cons] at hp
      simp only [memcpy_to_usbram, hd, if_pos]
      rw [pm_write_aligned_bytePM_frame rest _ (dest / 2 + 1) p (by omega)]
      by_cases hw : p / 2 = dest / 2
      · have hp0 : p % 2 = 0 := by omega
        rw [bytePM_upd_lo ram (dest / 2) _ p hp0 hw, head_lo]
        simp [bytePM, hp0, hw]
      · exact bytePM_upd_other ram (dest / 2) _ p hw
  · rw [memcpy_to_usbram.eq_def, if_neg hd]
    exact pm_write_aligned_bytePM_frame s ram (dest / 2) p (by omega)

/-- C7: for every byte count N up to the maximum packet size and every
packet-memory offset, odd offsets included, writing N arbitrary bytes with
memcpy_to_usbram and reading N bytes back from the same offset with
memcpy_from_usbram reproduces the original N bytes exactly. -/
theorem c7_roundtrip (ram : Ram) (off : Nat) (s : List Nat)
    (hlen : s.length ≤ USB_MAX_PACKET_SIZE) (hb : ∀ b ∈ s, b < 256) :
    memcpy_from_usbram (memcpy_to_usbram ram off s) off s.length = s := by
  rw [memcpy_rw_mod]
  have hid : ∀ t : List Nat, (∀ b ∈ t, b < 256) → t.map (fun b => b % 256) = t := by
    intro t ht
    induction t with
    | nil => rfl
    | cons a l ih =>
      simp only [List.map_cons]
      rw [Nat.mod_eq_of_lt (ht a (by simp)), ih (fun b hb2 => ht b (by simp [hb2]))]
  exact hid s hb

theorem c7_roundtrip_witness :
    memcpy_from_usbram (memcpy_to_usbram (fun _ => 0xABCD) 3 [250, 7, 9]) 3 3 = [250, 7, 9] :=
  c7_roundtrip (fun _ => 0xABCD) 3 [250, 7, 9] (by decide) (by decide)

/-- C8: a memcpy_to_usbram of n bytes at any destination offset, aligned
or odd, alters no packet-memory byte outside the written range; the
halves of the boundary words that the read-modify-write merges skip keep
their prior values. -/
theorem c8_frame (ram : Ram) (dest : Nat) (s : List Nat) (p : Nat)
    (hp : p < dest ∨ dest + s.length ≤ p) :
    bytePM (memcpy_to_usbram ram dest s) p = bytePM ram p :=
  memcpy_to_usbram_frame ram dest s p hp

theorem c8_frame_witness :
    bytePM (memcpy_to_usbram (fun _ => 0xABCD) 3 [250, 7]) 2 = bytePM (fun _ => 0xABCD) 2 :=
  c8_frame (fun _ => 0xABCD) 3 [250, 7] 2 (by decide)

/-! The descriptor stream: ep0_send_descriptor stages the first chunk,
each completed IN token stages the next through ep0_tx. -/

theorem ep0_tx_stream_fields (cfg : UsbConfig) (d : Dev) (rest : List Nat)
    (h : d.desc_ptr = some rest) :
    (ep0_tx cfg d).tx_log
        = d.tx_log ++ [rest.take (min d.desc_left USB_MAX_PACKET_SIZE)] ∧
    (ep0_tx cfg d).desc_left = d.desc_left - min d.desc_left USB_MAX_PACKET_SIZE ∧
    (ep0_tx cfg d).desc_ptr = some (rest.drop (min d.desc_left USB_MAX_PACKET_SIZE)) := by
  by_cases hs : d.set_addr = 0
  · simp [ep0_tx, hs, h]
  · simp [ep0_tx, hs, h]

theorem ep0_pumpN_none (cfg : UsbConfig) (fuel : Nat) (d : Dev) (h : d.desc_ptr = none) :
    ep0_pumpN cfg fuel d = d := by
  cases fuel with
  | zero => rfl
  | succ n => simp [ep0_pumpN, h]

theorem ep0_pumpN_stream :
    ∀ (fuel : Nat) (cfg : UsbConfig) (d : Dev) (rest : List Nat),
      d.desc_ptr = some rest → d.desc_left ≤ fuel →
      ∃ L, (ep0_pumpN cfg fuel d).tx_log = d.tx_log ++ L ∧
           L.flatten = rest.take d.desc_left ∧
           ∀ q ∈ L, q.length ≤ USB_MAX_PACKET_SIZE := by
  intro fuel
  induction fuel with
  | zero =>
    intro cfg d rest h hle
    have h0 : d.desc_left = 0 := by omega
    exact ⟨[], by simp [ep0_pumpN], by simp [h0], by simp⟩
  | succ n ih =>
    intro cfg d rest h hle
    by_cases hz : d.desc_left = 0
    · exact ⟨[], by simp [ep0_pumpN, hz], by simp [hz], by simp⟩
    · have hcond : d.desc_ptr ≠ none ∧ d.desc_left ≠ 0 := ⟨by simp [h], hz⟩
      obtain ⟨hlog, hleft, hptr⟩ := ep0_tx_stream_fields cfg d rest h
      set m := min d.desc_left USB_MAX_PACKET_SIZE with hm
      have h64 : USB_MAX_PACKET_SIZE = 64 := rfl
      rw [h64] at hm
      have hm1 : 1 ≤ m := by omega
      have hmle : m ≤ d.desc_left := by omega
      obtain ⟨L, hL1, hL2, hL3⟩ :=
        ih cfg (ep0_tx cfg d) (rest.drop m) (by rw [hptr]) (by rw [hleft]; omega)
      refine ⟨rest.take m :: L, ?_, ?_, ?_⟩
      · simp only [ep0_pumpN]
        rw [if_pos hcond, hL1, hlog, List.append_assoc]
        rfl
      · simp only [List.flatten_cons]
        rw [hL2, hleft]
        rw [← List.take_add]
        congr 1
        omega
      · intro q hq
        rcases List.mem_cons.mp hq with hq | hq
        · rw [hq]
          calc (rest.take m).length ≤ m := by simp
            _ ≤ USB_MAX_PACKET_SIZE := by omega
        · exact hL3 q hq

/-- C1: for a GET_DESCRIPTOR transfer with wLength (ep0_buf_rx[3]) larger
than one maximum packet, the concatenation of the staged IN payloads (the
first staged by ep0_send_descriptor, each continuation staged by ep0_tx)
equals the source descriptor truncated to min(wLength, descriptor
length), byte for byte, and no staged payload exceeds
USB_MAX_PACKET_SIZE bytes. -/
theorem c1_concat (cfg : UsbConfig) (d : Dev) (desc : List Nat)
    (hptr : d.desc_ptr = none) (hlog : d.tx_log = [])
    (hwl : USB_MAX_PACKET_SIZE < rxw d 3) :
    ((ep0_pumpN cfg (rxw d 3) (ep0_send_descriptor d desc desc.length 0)).tx_log).flatten
        = desc.take (min (rxw d 3) desc.length) ∧
    ∀ q ∈ (ep0_pumpN cfg (rxw d 3) (ep0_send_descriptor d desc desc.length 0)).tx_log,
      q.length ≤ USB_MAX_PACKET_SIZE := by
  have h64 : USB_MAX_PACKET_SIZE = 64 := rfl
  by_cases hc : USB_MAX_PACKET_SIZE ≤ min (rxw d 3) desc.length
  · have hfog : (ep0_send_descriptor d desc desc.length 0).tx_log
        = d.tx_log ++ [desc.take USB_MAX_PACKET_SIZE] := by
      simp [ep0_send_descriptor, hc]
    have hfleft : (ep0_send_descriptor d desc desc.length 0).desc_left
        = min (rxw d 3) desc.length - USB_MAX_PACKET_SIZE := by
      simp [ep0_send_descriptor, hc]
    have hfptr : (ep0_send_descriptor d desc desc.length 0).desc_ptr
        = some (desc.drop USB_MAX_PACKET_SIZE) := by
      simp [ep0_send_descriptor, hc]
    rw [h64] at hc
    obtain ⟨L, hL1, hL2, hL3⟩ :=
      ep0_pumpN_stream (rxw d 3) cfg (ep0_send_descriptor d desc desc.length 0)
        (desc.drop USB_MAX_PACKET_SIZE) hfptr (by rw [hfleft, h64]; omega)
    constructor
    · rw [hL1, hfog, hlog, List.nil_append, List.singleton_append, List.flatten_cons,
          hL2, hfleft, ← List.take_add]
      congr 1
      rw [h64]
      omega
    · intro q hq
      rw [hL1, hfog, hlog, List.nil_append, List.singleton_append] at hq
      rcases List.mem_cons.mp hq with hq | hq
      · rw [hq, List.length_take]
        rw [h64]
        omega
      · exact hL3 q hq
  · have hnc := Nat.not_le.mp hc
    have hfptr : (ep0_send_descriptor d desc desc.length 0).desc_ptr = d.desc_ptr := by
      simp [ep0_send_descriptor, hc]
    have hfog : (ep0_send_descriptor d desc desc.length 0).tx_log
        = d.tx_log ++ [desc.take (min (rxw d 3) desc.length)] := by
      simp [ep0_send_descriptor, hc]
    rw [ep0_pumpN_none cfg _ _ (by rw [hfptr, hptr])]
    constructor
    · rw [hfog, hlog, List.nil_append]
      simp
    · intro q hq
      rw [hfog, hlog, List.nil_append] at hq
      rcases List.mem_cons.mp hq with hq | hq
      · rw [hq, List.length_take]
        rw [h64] at hnc ⊢
        omega
      · simp at hq

theorem c1_concat_witness :
    ((ep0_pumpN cfg0 (rxw { dev0 with rx_buf := [0, 0, 0, 100] } 3)
        (ep0_send_descriptor { dev0 with rx_buf := [0, 0, 0, 100] } (List.range 130)
          (List.range 130).length 0)).tx_log).flatten
      = (List.range 130).take (min (rxw { dev0 with rx_buf := [0, 0, 0, 100] } 3)
          (List.range 130).length) ∧
    ∀ q ∈ (ep0_pumpN cfg0 (rxw { dev0 with rx_buf := [0, 0, 0, 100] } 3)
        (ep0_send_descriptor { dev0 with rx_buf := [0, 0, 0, 100] } (List.range 130)
          (List.range 130).length 0)).tx_log, q.length ≤ USB_MAX_PACKET_SIZE :=
  c1_concat cfg0 { dev0 with rx_buf := [0, 0, 0, 100] } (List.range 130) rfl rfl (by decide)

/-! Dispatch-level facts about ep0_rx / ep0_tx. -/

theorem rxw_reset (d : Dev) (x : Option (List Nat)) (y i : Nat) :
    rxw { d with desc_ptr := x, iface_next := y } i = rxw d i := rfl

theorem rx_buf_reset (d : Dev) (x : Option (List Nat)) (y : Nat) :
    ({ d with desc_ptr := x, iface_next := y } : Dev).rx_buf = d.rx_buf := rfl

/-- ep0_rx never writes the hardware address register nor the power
flags; in particular the SET_ADDRESS decode leaves DADDR untouched. -/
theorem ep0_rx_frame (cfg : UsbConfig) (d : Dev) :
    (ep0_rx cfg d).daddr = d.daddr ∧
    (ep0_rx cfg d).cntr_fsusp = d.cntr_fsusp ∧
    (ep0_rx cfg d).usb_wake_done = d.usb_wake_done := by
  simp only [ep0_rx, ep0_rx_dispatch]
  split_ifs <;> simp [unknown_req, ep0_send_descriptor]

/-- ep0_tx never writes the power flags. -/
theorem ep0_tx_power_frame (cfg : UsbConfig) (d : Dev) :
    (ep0_tx cfg d).cntr_fsusp = d.cntr_fsusp ∧
    (ep0_tx cfg d).usb_wake_done = d.usb_wake_done := by
  unfold ep0_tx
  rcases hp : d.desc_ptr with - | p <;> by_cases hs : d.set_addr = 0 <;>
    simp [hp, hs] <;> split_ifs <;> simp

/-- With a pending address, ep0_tx applies it to DADDR with the enable
bit and clears the pending value. -/
theorem ep0_tx_apply_addr (cfg : UsbConfig) (d : Dev) (h : d.set_addr ≠ 0) :
    (ep0_tx cfg d).daddr = d.set_addr ||| 0x80 ∧ (ep0_tx cfg d).set_addr = 0 := by
  unfold ep0_tx
  rcases hp : d.desc_ptr with - | p <;>
    simp [hp, h] <;> split_ifs <;> simp [h]

/-- With no pending address, ep0_tx leaves DADDR and set_addr alone. -/
theorem ep0_tx_no_addr (cfg : UsbConfig) (d : Dev) (h : d.set_addr = 0) :
    (ep0_tx cfg d).daddr = d.daddr ∧ (ep0_tx cfg d).set_addr = 0 := by
  unfold ep0_tx
  rcases hp : d.desc_ptr with - | p <;>
    simp [hp, h] <;> split_ifs <;> simp [h]

/-- Decoding SET_ADDRESS: the request is recorded in set_addr, a
zero-length IN is armed, and nothing else changes. -/
theorem ep0_rx_set_address (cfg : UsbConfig) (d : Dev)
    (h0 : rxw d 0 = USB_DIR_OUT ||| (USB_REQ_SET_ADDRESS <<< 8)) :
    ep0_rx cfg d = { d with desc_ptr := none, iface_next := cfg.ifaceCount,
                            set_addr := rxw d 1 &&& 0xff, btable0_tx_count := 0,
                            ep0 := { tx := EPXfer.valid, rx := EPXfer.valid,
                                     statusOut := false } } := by
  have hreq : rxw { d with desc_ptr := none, iface_next := cfg.ifaceCount } 0 = 0x0500 := by
    rw [rxw_reset, h0]
    decide
  simp only [ep0_rx, ep0_rx_dispatch, hreq, rxw_reset, rx_buf_reset]
  simp [show ¬((0x0500 : Nat) &&& USB_RECIP_MASK = USB_RECIP_INTERFACE) from by decide,
        show ¬((0x0500 : Nat) &&& USB_TYPE_MASK = USB_TYPE_VENDOR) from by decide,
        show ¬((0x0500 : Nat) = USB_DIR_IN ||| (USB_REQ_GET_DESCRIPTOR <<< 8)) from by decide,
        show ¬((0x0500 : Nat) = USB_DIR_IN ||| (USB_REQ_GET_STATUS <<< 8)) from by decide,
        show (0x0500 : Nat) &&& 0xff = USB_DIR_OUT from by decide,
        show ¬((0x0500 : Nat) >>> 8 = USB_REQ_SET_FEATURE) from by decide,
        show ¬((0x0500 : Nat) >>> 8 = USB_REQ_CLEAR_FEATURE) from by decide,
        show (0x0500 : Nat) >>> 8 = USB_REQ_SET_ADDRESS from by decide]
  intro hx
  exact absurd hx (by decide)

/-- Decoding GET_DESCRIPTOR for the device descriptor routes to
ep0_send_descriptor with the device blob. -/
theorem ep0_rx_get_device (cfg : UsbConfig) (d : Dev)
    (h0 : rxw d 0 = USB_DIR_IN ||| (USB_REQ_GET_DESCRIPTOR <<< 8))
    (h1 : rxw d 1 >>> 8 = USB_DT_DEVICE) :
    ep0_rx cfg d = ep0_send_descriptor
        { d with desc_ptr := none, iface_next := cfg.ifaceCount }
        cfg.deviceDesc cfg.deviceDesc.length 0 := by
  simp only [ep0_rx, ep0_rx_dispatch, rxw_reset, rx_buf_reset, h0, h1]
  rw [if_neg (fun hc => absurd hc.1 (by decide :
        ¬((USB_DIR_IN ||| (USB_REQ_GET_DESCRIPTOR <<< 8)) &&& USB_RECIP_MASK
            = USB_RECIP_INTERFACE))),
      if_neg (by decide : ¬((USB_DIR_IN ||| (USB_REQ_GET_DESCRIPTOR <<< 8)) &&& USB_TYPE_MASK
            = USB_TYPE_VENDOR))]
  simp

theorem addr_bits (a : Nat) (h : a < 128) : (a ||| 0x80) &&& 0x7f = a := by
  have h80 : (0x80 : Nat) = 2 ^ 7 * 1 := by norm_num
  rw [Nat.lor_comm, h80, lor_mul_add 1 a (by omega), and127]
  omega

/-- C2 counterexample: SET_ADDRESS with wValue 0 (a legal USB request
returning the device to the default address) is never applied, because 0
is the no-pending-address sentinel; after the status-stage ep0_tx the
address register still holds the old address 5, not 0. -/
theorem c2_counterexample :
    (ep0_tx cfg0 (ep0_rx cfg0
        { dev0 with daddr := 0x85, rx_buf := [0x0500, 0, 0, 0] })).daddr = 0x85 ∧
    (ep0_tx cfg0 (ep0_rx cfg0
        { dev0 with daddr := 0x85, rx_buf := [0x0500, 0, 0, 0] })).daddr ≠ 0 ||| 0x80 := by
  decide

/-- C2 amended: for a SET_ADDRESS whose wValue low byte a is non-zero
(and a valid USB address, below 128), the decode leaves DADDR untouched,
records a as the pending address, the first following ep0_tx writes
exactly a (plus the enable bit) into DADDR and clears the pending value,
and any ep0_tx with no pending address leaves DADDR alone, so the address
is applied exactly once.  A request for address 0 is the sentinel and is
never applied (see the counterexample). -/
theorem c2_set_address (cfg : UsbConfig) (d : Dev) (a : Nat)
    (h0 : rxw d 0 = USB_DIR_OUT ||| (USB_REQ_SET_ADDRESS <<< 8))
    (ha : rxw d 1 &&& 0xff = a) (ha0 : 0 < a) (ha7 : a < 128) :
    (ep0_rx cfg d).daddr = d.daddr ∧
    (ep0_rx cfg d).set_addr = a ∧
    (ep0_tx cfg (ep0_rx cfg d)).daddr = a ||| 0x80 ∧
    (ep0_tx cfg (ep0_rx cfg d)).daddr &&& 0x7f = a ∧
    (ep0_tx cfg (ep0_rx cfg d)).set_addr = 0 ∧
    (∀ e : Dev, e.set_addr = 0 → (ep0_tx cfg e).daddr = e.daddr) := by
  have hrx := ep0_rx_set_address cfg d h0
  have hsa : (ep0_rx cfg d).set_addr = a := by rw [hrx, ← ha]
  have hda : (ep0_rx cfg d).daddr = d.daddr := by rw [hrx]
  obtain ⟨htx1, htx2⟩ := ep0_tx_apply_addr cfg (ep0_rx cfg d) (by rw [hsa]; omega)
  refine ⟨hda, hsa, ?_, ?_, htx2, ?_⟩
  · rw [htx1, hsa]
  · rw [htx1, hsa, addr_bits a ha7]
  · intro e he
    exact (ep0_tx_no_addr cfg e he).1

theorem c2_set_address_witness :
    (ep0_rx cfg0 { dev0 with rx_buf := [0x0500, 5, 0, 0] }).daddr
        = ({ dev0 with rx_buf := [0x0500, 5, 0, 0] } : Dev).daddr ∧
    (ep0_rx cfg0 { dev0 with rx_buf := [0x0500, 5, 0, 0] }).set_addr = 5 ∧
    (ep0_tx cfg0 (ep0_rx cfg0 { dev0 with rx_buf := [0x0500, 5, 0, 0] })).daddr = 5 ||| 0x80 ∧
    (ep0_tx cfg0 (ep0_rx cfg0 { dev0 with rx_buf := [0x0500, 5, 0, 0] })).daddr &&& 0x7f = 5 ∧
    (ep0_tx cfg0 (ep0_rx cfg0 { dev0 with rx_buf := [0x0500, 5, 0, 0] })).set_addr = 0 ∧
    (∀ e : Dev, e.set_addr = 0 → (ep0_tx cfg0 e).daddr = e.daddr) :=
  c2_set_address cfg0 { dev0 with rx_buf := [0x0500, 5, 0, 0] } 5 (by decide) (by decide)
    (by decide) (by decide)

/-- C3 counterexample: ep0_rx does not reset desc_left, and the stale
remaining-length from a pre-empted transfer changes the handling of the
new request: a single-packet GET_DESCRIPTOR(device, wLength 18) arriving
while desc_left = 96 is still pending does not arm the automatic
status-stage OUT, while the same request with desc_left = 0 does. -/
theorem c3_counterexample :
    (ep0_rx cfg0 { dev0 with desc_left := 96, desc_ptr := some (List.replicate 96 1),
                             rx_buf := [0x0680, 0x0100, 0, 18] }).ep0.statusOut = false ∧
    (ep0_rx cfg0 { dev0 with desc_left := 0, desc_ptr := some (List.replicate 96 1),
                             rx_buf := [0x0680, 0x0100, 0, 18] }).ep0.statusOut = true := by
  decide

/-- C3 amended: a new SETUP resets the Descriptor Stream Cursor pointer
(desc_ptr) and the Active Interface Slot (iface_next) before dispatch, so
their carried-over values cannot influence the new request; the
remaining-length count (desc_left) is NOT reset, and for a single-packet
descriptor response the automatic status-stage OUT is armed if and only
if the carried-over desc_left is zero. -/
theorem c3_setup_reset :
    (∀ (cfg : UsbConfig) (d : Dev),
       ep0_rx cfg d = ep0_rx cfg { d with desc_ptr := none, iface_next := cfg.ifaceCount }) ∧
    (∀ (cfg : UsbConfig) (d : Dev),
       rxw d 0 = USB_DIR_IN ||| (USB_REQ_GET_DESCRIPTOR <<< 8) →
       rxw d 1 >>> 8 = USB_DT_DEVICE →
       min (rxw d 3) cfg.deviceDesc.length < USB_MAX_PACKET_SIZE →
       (ep0_rx cfg d).ep0.statusOut = decide (d.desc_left = 0)) := by
  constructor
  · intro cfg d
    rfl
  · intro cfg d h0 h1 hlt
    have hno : ¬(USB_MAX_PACKET_SIZE ≤ rxw d 3 ∧
        USB_MAX_PACKET_SIZE ≤ cfg.deviceDesc.length) := by
      intro hc
      omega
    rw [ep0_rx_get_device cfg d h0 h1]
    simp [ep0_send_descriptor, rxw_reset, hno]

theorem c3_setup_reset_witness :
    (ep0_rx cfg0 { dev0 with desc_left := 96, desc_ptr := some (List.replicate 96 1),
                             rx_buf := [0x0680, 0x0100, 0, 18] }
      = ep0_rx cfg0
          { { dev0 with desc_left := 96, desc_ptr := some (List.replicate 96 1),
                        rx_buf := [0x0680, 0x0100, 0, 18] } with
              desc_ptr := none, iface_next := cfg0.ifaceCount }) ∧
    (ep0_rx cfg0 { dev0 with desc_left := 96, desc_ptr := some (List.replicate 96 1),
                             rx_buf := [0x0680, 0x0100, 0, 18] }).ep0.statusOut
      = decide (({ dev0 with desc_left := 96, desc_ptr := some (List.replicate 96 1),
                             rx_buf := [0x0680, 0x0100, 0, 18] } : Dev).desc_left = 0) :=
  ⟨c3_setup_reset.1 cfg0 _,
   c3_setup_reset.2 cfg0
     { dev0 with desc_left := 96, desc_ptr := some (List.replicate 96 1),
                 rx_buf := [0x0680, 0x0100, 0, 18] } (by decide) (by decide) (by decide)⟩

/-- C4 counterexample: on an unsupported request (device-qualifier
GET_DESCRIPTOR) ep0_rx stalls only the transmit direction; the receive
direction is set to VALID, not STALL, so that the next SETUP is
accepted. -/
theorem c4_counterexample :
    (ep0_rx cfg0 { dev0 with rx_buf := [0x0680, 0x0600, 0, 10] }).ep0.tx = EPXfer.stall ∧
    (ep0_rx cfg0 { dev0 with rx_buf := [0x0680, 0x0600, 0, 10] }).ep0.rx = EPXfer.valid ∧
    (ep0_rx cfg0 { dev0 with rx_buf := [0x0680, 0x0600, 0, 10] }).ep0.rx ≠ EPXfer.stall := by
  decide

/-- C4 amended: for every control request unmatched or unsupported at
every dispatch stage (interface handler error, unmatched vendor request,
string index out of range, device-qualifier query, unhandled descriptor
type, unsupported feature, unhandled OUT request, anything else
unmatched), ep0_rx forces the transmit direction of endpoint 0 to STALL
and re-arms the receive direction as VALID (with no status-out flag), so
the next SETUP is serviced normally. -/
theorem c4_unmatched (cfg : UsbConfig) (d : Dev) (h : ep0_unmatched cfg d) :
    (ep0_rx cfg d).ep0
      = { tx := EPXfer.stall, rx := EPXfer.valid, statusOut := false } := by
  simp only [ep0_unmatched] at h
  simp only [ep0_rx, ep0_rx_dispatch, rxw_reset, rx_buf_reset]
  rcases h with ⟨hA, hr⟩ | ⟨hA, hB⟩ | ⟨hA, hB, hC, hT1, hT2, hT3⟩ |
    ⟨hA, hB, hC, hD, hE, hF, hG⟩ | ⟨hA, hB, hC, hD, hE, hF1, hF2, hH, hI⟩ |
    ⟨hA, hB, hC, hD, hE⟩
  · rw [if_pos hA, if_pos hr]
    rfl
  · rw [if_neg hA, if_pos hB]
    rfl
  · rw [if_neg hA, if_neg hB, if_pos hC]
    by_cases hty : rxw d 1 >>> 8 = USB_DT_STRING
    · rw [if_neg hT1, if_neg hT2, if_pos hty, if_pos (hT3 hty)]
      rfl
    · rw [if_neg hT1, if_neg hT2, if_neg hty]
      rfl
  · rw [if_neg hA, if_neg hB, if_neg hC, if_neg hD, if_pos hE, if_pos hF, if_neg hG]
    rfl
  · rw [if_neg hA, if_neg hB, if_neg hC, if_neg hD, if_pos hE,
        if_neg (not_or.mpr ⟨hF1, hF2⟩), if_neg hH, if_neg hI]
    rfl
  · rw [if_neg hA, if_neg hB, if_neg hC, if_neg hD, if_neg hE]
    rfl

theorem c4_unmatched_witness :
    (ep0_rx cfg0 { dev0 with rx_buf := [0x0680, 0x0305, 0, 10] }).ep0
      = { tx := EPXfer.stall, rx := EPXfer.valid, statusOut := false } :=
  c4_unmatched cfg0 { dev0 with rx_buf := [0x0680, 0x0305, 0, 10] } (by decide)

/-- C5 counterexample: usb_reset does not clear the Pending Address, the
Descriptor Stream Cursor, or the Active Interface Slot; all survive the
bus reset unchanged. -/
theorem c5_counterexample :
    (usb_reset { dev0 with set_addr := 5, desc_left := 7, desc_ptr := some [1],
                           iface_next := 0 }).set_addr = 5 ∧
    (usb_reset { dev0 with set_addr := 5, desc_left := 7, desc_ptr := some [1],
                           iface_next := 0 }).set_addr ≠ 0 ∧
    (usb_reset { dev0 with set_addr := 5, desc_left := 7, desc_ptr := some [1],
                           iface_next := 0 }).desc_left = 7 ∧
    (usb_reset { dev0 with set_addr := 5, desc_left := 7, desc_ptr := some [1],
                           iface_next := 0 }).desc_ptr = some [1] ∧
    (usb_reset { dev0 with set_addr := 5, desc_left := 7, desc_ptr := some [1],
                           iface_next := 0 }).iface_next = 0 := by
  decide

/-- C5 amended: on a USB bus reset, usb_reset reinitializes the control
endpoint (endpoint register TX NAK / RX VALID, btable entry reset) and
applies the default address 0 (enable bit set), and changes nothing
else: the Pending Address (set_addr), the Descriptor Stream Cursor
(desc_ptr and desc_left) and the Active Interface Slot (iface_next)
are NOT cleared and survive into the next control transfer. -/
theorem c5_reset_effect (d : Dev) :
    usb_reset d = { d with daddr := 0 ||| 0x80,
                           ep0 := { tx := EPXfer.nak, rx := EPXfer.valid, statusOut := false },
                           btable0_tx_addr := ep0_buf_tx_addr,
                           btable0_rx_addr := ep0_buf_rx_addr,
                           btable0_rx_count := 0x8000 ||| ((USB_MAX_PACKET_SIZE / 32 - 1) <<< 10),
                           btable0_tx_count := 0 } := rfl

/-- C6 counterexample: a descriptor transfer of exactly one maximum
packet (wLength = descriptor length = 64) does not strictly exceed
USB_MAX_PACKET_SIZE, and its only chunk is also its last (desc_left = 0,
the automatic status-stage OUT is armed), yet ep0_send_descriptor sets
the cursor pointer non-null, and it stays non-null after the last chunk
has been staged. -/
theorem c6_counterexample :
    (ep0_send_descriptor { dev0 with rx_buf := [0, 0, 0, 64] }
        (List.replicate 64 0xAB) 64 0).desc_ptr ≠ none ∧
    (ep0_send_descriptor { dev0 with rx_buf := [0, 0, 0, 64] }
        (List.replicate 64 0xAB) 64 0).desc_left = 0 ∧
    (ep0_send_descriptor { dev0 with rx_buf := [0, 0, 0, 64] }
        (List.replicate 64 0xAB) 64 0).ep0.statusOut = true := by
  decide

/-- C6 amended: starting from a clear cursor, ep0_send_descriptor leaves
desc_ptr non-null exactly when min(wLength, len) is at least (not
strictly greater than) USB_MAX_PACKET_SIZE; the streaming branch of
ep0_tx never clears desc_ptr, i.e. the pointer survives the staging of
the final chunk; and desc_ptr is cleared at the start of every new setup
stage (ep0_rx behaves as if desc_ptr had been none). -/
theorem c6_cursor :
    (∀ (d : Dev) (desc : List Nat) (len0 fx : Nat), d.desc_ptr = none →
       ((ep0_send_descriptor d desc len0 fx).desc_ptr ≠ none ↔
         USB_MAX_PACKET_SIZE ≤ min (rxw d 3) len0)) ∧
    (∀ (cfg : UsbConfig) (d : Dev) (ptr : List Nat), d.desc_ptr = some ptr →
       (ep0_tx cfg d).desc_ptr ≠ none) ∧
    (∀ (cfg : UsbConfig) (d : Dev),
       ep0_rx cfg d = ep0_rx cfg { d with desc_ptr := none }) := by
  refine ⟨?_, ?_, ?_⟩
  · intro d desc len0 fx h
    by_cases hc : USB_MAX_PACKET_SIZE ≤ min (rxw d 3) len0
    · simp [ep0_send_descriptor, hc]
    · simp [ep0_send_descriptor, hc, h]
  · intro cfg d ptr h
    obtain ⟨-, -, hp⟩ := ep0_tx_stream_fields cfg d ptr h
    rw [hp]
    simp
  · intro cfg d
    rfl

theorem c6_cursor_witness :
    ((ep0_send_descriptor { dev0 with rx_buf := [0, 0, 0, 64] }
        (List.replicate 64 0xAB) 64 0).desc_ptr ≠ none ↔
      USB_MAX_PACKET_SIZE ≤ min (rxw { dev0 with rx_buf := [0, 0, 0, 64] } 3) 64) ∧
    (ep0_tx cfg0 { dev0 with desc_ptr := some (List.replicate 10 1), desc_left := 10
      }).desc_ptr ≠ none ∧
    ep0_rx cfg0 { dev0 with desc_ptr := some (List.replicate 10 1) }
      = ep0_rx cfg0 { { dev0 with desc_ptr := some (List.replicate 10 1) } with
                        desc_ptr := none } :=
  ⟨c6_cursor.1 { dev0 with rx_buf := [0, 0, 0, 64] } (List.replicate 64 0xAB) 64 0 rfl,
   c6_cursor.2.1 cfg0 { dev0 with desc_ptr := some (List.replicate 10 1), desc_left := 10 }
     (List.replicate 10 1) rfl,
   c6_cursor.2.2 cfg0 { dev0 with desc_ptr := some (List.replicate 10 1) }⟩

/-! Power-state lemmas for the suspend/wake claims. -/

theorem is_susp_false_iff (e : Dev) :
    usb_is_suspended e = false ↔ (e.cntr_fsusp = false ∧ e.usb_wake_done = true) := by
  unfold usb_is_suspended
  split_ifs <;> simp_all

theorem is_susp_true_cases (d : Dev) (h : usb_is_suspended d = true) :
    d.cntr_fsusp = true ∨ d.usb_wake_done = false := by
  unfold usb_is_suspended at h
  split_ifs at h <;> simp_all

theorem reset_step_power (i : IntrStatus) (d : Dev) :
    (reset_step i d).cntr_fsusp = d.cntr_fsusp ∧
    (reset_step i d).usb_wake_done = d.usb_wake_done := by
  unfold reset_step
  split_ifs <;> exact ⟨rfl, rfl⟩

theorem ctr_step_power (cfg : UsbConfig) (i : IntrStatus) (e : Dev) :
    (ctr_step cfg i e).cntr_fsusp = e.cntr_fsusp ∧
    (ctr_step cfg i e).usb_wake_done = e.usb_wake_done := by
  unfold ctr_step
  split_ifs
  · exact ⟨(ep0_rx_frame cfg e).2.1, (ep0_rx_frame cfg e).2.2⟩
  · exact ep0_tx_power_frame cfg e
  · exact ⟨rfl, rfl⟩

theorem esof_step_fsusp (i : IntrStatus) (d : Dev) (h : d.cntr_fsusp = true) :
    (esof_step i d).cntr_fsusp = true := by
  unfold esof_step
  by_cases h1 : i.esof = true ∧ d.usb_wake_done = false <;>
    by_cases h2 : d.esof_count - 1 = 0 <;>
    by_cases h3 : d.esof_count - 1 ≤ 0 <;>
    by_cases h4 : i.linestate = 2 ∨ i.linestate = 3 ∨
      d.esof_count - 1 ≤ -(USB_RESUME_TIMEOUT_MS : Int) <;>
    by_cases h5 : i.linestate ≠ 2 <;>
    simp [h1, h2, h3, h4, h5, usb_suspend, h] <;>
    split_ifs <;>
    simp

theorem esof_step_complete (i : IntrStatus) (d : Dev)
    (h0 : d.usb_wake_done = false) (h1 : (esof_step i d).usb_wake_done = true) :
    i.linestate = 2 ∨ (esof_step i d).cntr_fsusp = true := by
  unfold esof_step at h1 ⊢
  by_cases h2 : i.esof = true ∧ d.usb_wake_done = false <;>
    by_cases h3 : d.esof_count - 1 = 0 <;>
    by_cases h4 : d.esof_count - 1 ≤ 0 <;>
    by_cases h5 : i.linestate = 2 ∨ i.linestate = 3 ∨
      d.esof_count - 1 ≤ -(USB_RESUME_TIMEOUT_MS : Int) <;>
    by_cases h6 : i.linestate ≠ 2 <;>
    simp [h2, h3, h4, h5, h6, usb_suspend, h0] at h1 ⊢ <;>
    (try split_ifs at h1 ⊢) <;> simp_all

theorem susp_step_fsusp_false (i : IntrStatus) (e : Dev)
    (h : (susp_step i e).cntr_fsusp = false) :
    susp_step i e = e ∧ e.cntr_fsusp = false := by
  unfold susp_step at h ⊢
  split_ifs at h ⊢ <;> simp_all [usb_suspend]

/-- C9: usb_is_suspended reports suspended whenever a wake attempt is
still pending (usb_wake_done clear), and across any single usb_interrupt
invocation the report can flip from suspended to awake only when the
resume has fully completed: both the FSUSP bit and the wake-in-progress
state are then clear, and the step either handled a host resume (WKUP)
or observed bus line state 2 at the end of the ESOF countdown.  Every
transient countdown state, the RESUME de-assertion at count 0 and the
failure re-suspend included, keeps the device reported suspended. -/
theorem c9_suspend_visibility :
    (∀ d : Dev, d.usb_wake_done = false → usb_is_suspended d = true) ∧
    (∀ (cfg : UsbConfig) (i : IntrStatus) (d : Dev),
       usb_is_suspended d = true →
       usb_is_suspended (usb_interrupt cfg i d) = false →
       ((usb_interrupt cfg i d).cntr_fsusp = false ∧
        (usb_interrupt cfg i d).usb_wake_done = true ∧
        (i.wkup = true ∨ i.linestate = 2))) := by
  constructor
  · intro d h
    simp [usb_is_suspended, h]
  · intro cfg i d hs hs2
    have hff := (is_susp_false_iff (usb_interrupt cfg i d)).mp hs2
    refine ⟨hff.1, hff.2, ?_⟩
    by_cases hw : i.wkup = true
    · exact Or.inl hw
    · right
      have hwf : i.wkup = false := by
        revert hw
        cases i.wkup <;> simp
      have hui : usb_interrupt cfg i d
          = ctr_step cfg i (wkup_step i (susp_step i (esof_step i (reset_step i d)))) := rfl
      have hctr := ctr_step_power cfg i (wkup_step i (susp_step i (esof_step i (reset_step i d))))
      have hwk : wkup_step i (susp_step i (esof_step i (reset_step i d)))
          = susp_step i (esof_step i (reset_step i d)) := by
        unfold wkup_step
        rw [hwf]
        simp
      obtain ⟨hff1, hff2⟩ := hff
      rw [hui, hctr.1, hwk] at hff1
      rw [hui, hctr.2, hwk] at hff2
      obtain ⟨hsusp_eq, hfsusp2⟩ := susp_step_fsusp_false i _ hff1
      rw [hsusp_eq] at hff2
      have hrf : (reset_step i d).cntr_fsusp = false := by
        by_contra hc
        rw [Bool.not_eq_false] at hc
        rw [esof_step_fsusp i (reset_step i d) hc] at hfsusp2
        exact absurd hfsusp2 (by simp)
      have hdf : d.cntr_fsusp = false := by
        rw [← (reset_step_power i d).1]
        exact hrf
      have hdw : d.usb_wake_done = false := by
        rcases is_susp_true_cases d hs with hx | hx
        · rw [hdf] at hx
          exact absurd hx (by simp)
        · exact hx
      have hrw : (reset_step i d).usb_wake_done = false := by
        rw [(reset_step_power i d).2]
        exact hdw
      rcases esof_step_complete i (reset_step i d) hrw hff2 with hls | hfs
      · exact hls
      · rw [hfs] at hfsusp2
        exact absurd hfsusp2 (by simp)

theorem c9_suspend_visibility_witness :
    (usb_is_suspended { dev0 with usb_wake_done := false } = true) ∧
    ((usb_interrupt cfg0
        { reset := false, esof := true, susp := false, wkup := false, ctr := false,
          ep := 0, dir_rx := false, linestate := 2 }
        { dev0 with usb_wake_done := false, esof_count := 1 }).cntr_fsusp = false ∧
     (usb_interrupt cfg0
        { reset := false, esof := true, susp := false, wkup := false, ctr := false,
          ep := 0, dir_rx := false, linestate := 2 }
        { dev0 with usb_wake_done := false, esof_count := 1 }).usb_wake_done = true ∧
     (({ reset := false, esof := true, susp := false, wkup := false, ctr := false,
          ep := 0, dir_rx := false, linestate := 2 } : IntrStatus).wkup = true ∨
      ({ reset := false, esof := true, susp := false, wkup := false, ctr := false,
          ep := 0, dir_rx := false, linestate := 2 } : IntrStatus).linestate = 2)) :=
  ⟨c9_suspend_visibility.1 { dev0 with usb_wake_done := false } rfl,
   c9_suspend_visibility.2 cfg0
     { reset := false, esof := true, susp := false, wkup := false, ctr := false,
       ep := 0, dir_rx := false, linestate := 2 }
     { dev0 with usb_wake_done := false, esof_count := 1 } (by decide) (by decide)⟩

/-- C10: a usb_wake call while a prior wake attempt is still in progress
(usb_wake_done already cleared) is a no-op: the state is returned
unchanged, so no ESOF countdown is armed, RESUME is not re-asserted and
the board side-channel hook is not invoked (the ghost board_wake_calls
counter is unchanged).  Likewise a usb_wake call with remote wakeup not
enabled or the device not suspended returns immediately with no side
effects. -/
theorem c10_wake_noop :
    (∀ d : Dev, d.usb_wake_done = false → usb_wake d = d) ∧
    (∀ d : Dev, d.remote_wakeup_enabled = false ∨ d.cntr_fsusp = false → usb_wake d = d) := by
  constructor
  · intro d h
    unfold usb_wake
    by_cases hg : d.remote_wakeup_enabled = false ∨ d.cntr_fsusp = false
    · rw [if_pos hg]
    · rw [if_neg hg, if_pos h]
  · intro d h
    unfold usb_wake
    rw [if_pos h]

theorem c10_wake_noop_witness :
    (usb_wake { dev0 with remote_wakeup_enabled := true, cntr_fsusp := true,
                          usb_wake_done := false }
      = { dev0 with remote_wakeup_enabled := true, cntr_fsusp := true,
                    usb_wake_done := false }) ∧
    usb_wake dev0 = dev0 :=
  ⟨c10_wake_noop.1 _ rfl, c10_wake_noop.2 dev0 (Or.inl rfl)⟩
